import Mathlib

/-!
Shallow embedding of the aggregation-cache-synthesis pipeline implemented in
`src/server/index.js` (an Express server that fans out Tavily searches,
filters/dedups/ranks the results, synthesizes study material with a generative
model, and caches raw search payloads in an in-memory `Map` with a 30-minute
TTL).

Modelling conventions:
* JavaScript strings are Lean `String`s (lists of characters); `.length`,
  `toLowerCase`, `trim`, `substring` and `includes` are embedded character-wise
  (the sources only ever hit the ASCII fragment where the JS and Lean notions
  agree).
* JavaScript numbers that the code uses for arithmetic (timestamps, scores,
  day counts) are `Int` with exact arithmetic.
* External effects — the two `fetch(...).then(res => res.json())` provider
  calls, the `model.generateContent` invocations, `new URL(u).hostname`, and
  `JSON.parse` composed with the code-fence-stripping regex — are oracles
  carried in an environment record.  A rejected promise / thrown exception is
  an `Except.error` (resp. `Option.none`) outcome of the oracle.
* The global `searchCache` `Map` is threaded explicitly as a value of type
  `Cache`; `Date.now()` is the `now` field of the environment.
* `Array.prototype.sort` with a numeric comparator is stable in ECMAScript;
  it is embedded as a stable insertion sort on the comparator's key.
* A JavaScript `Map` keeps the insertion-order position of the first `set` of
  a key while later `set`s overwrite the value; `jsMapInsert` embeds exactly
  that behaviour.
-/

/-! ### JavaScript string primitives -/

/-- Whitespace characters removed by `String.prototype.trim` (ASCII fragment
plus NBSP; the repository only produces ASCII keys). -/
def isJsSpace (c : Char) : Bool :=
  c == ' ' || c == '\t' || c == '\n' || c == '\r' || c == '\x0b' || c == '\x0c' || c == ' '

/-- `String.prototype.toLowerCase`, character-wise (agrees with JS on ASCII). -/
def jsToLower (s : String) : String :=
  ⟨s.data.map Char.toLower⟩

/-- `String.prototype.trim`: drop whitespace from both ends only. -/
def jsTrim (s : String) : String :=
  ⟨((s.data.dropWhile isJsSpace).reverse.dropWhile isJsSpace).reverse⟩

/-- `needle` matches at the head of `hay`. -/
def matchesFront : List Char → List Char → Bool
  | [], _ => true
  | _ :: _, [] => false
  | c :: cs, d :: ds => c == d && matchesFront cs ds

/-- `needle` occurs contiguously somewhere in `hay`
(`String.prototype.includes`). -/
def hasSub (needle : List Char) : List Char → Bool
  | [] => matchesFront needle []
  | d :: rest => matchesFront needle (d :: rest) || hasSub needle rest

/-- `hay.includes(needle)` on strings. -/
def containsSub (hay needle : String) : Bool :=
  hasSub needle.data hay.data

/-- `s.substring(a, b)` (the code only uses `substring(0, 300)`). -/
def jsSubstring (s : String) (a b : Nat) : String :=
  ⟨(s.data.drop a).take (b - a)⟩

/-- JavaScript template-literal rendering of a boolean (`${isStudyPlan}`). -/
def jsBoolString (b : Bool) : String :=
  if b then "true" else "false"

/-! ### Data model -/

/-- A raw provider search result (`{url, title, content, relevance_score?,
timestamp?}`).  `relevance_score` is `none` when the field is absent/falsy
(the code reads `a.relevance_score || 0`); `timestamp` is the epoch-millis
value of `new Date(a.timestamp).getTime()` when the field is truthy. -/
structure RawResult where
  url : String
  title : String
  content : String
  relevance_score : Option Int
  timestamp : Option Int
deriving DecidableEq

/-- The payload cached and returned by `searchTavily`
(`{results, answer}`, line 99-102). -/
structure SearchData where
  results : List RawResult
  answer : String
deriving DecidableEq

/-- The study-plan document produced by `JSON.parse` of the model output
(line 229).  Its internal JSON structure is irrelevant to every claim, so it
is kept opaque as the parsed payload. -/
structure PlanDoc where
  payload : String
deriving DecidableEq

/-- The curated-resources document produced by `JSON.parse` of the model
output in `/api/curate` (line 292); kept opaque like `PlanDoc`. -/
structure ResourcesDoc where
  payload : String
deriving DecidableEq

/-- A value stored in the single global `searchCache` `Map`: `searchTavily`
stores raw search payloads, `generateStudyPlan` stores parsed plans. -/
inductive CacheValue where
  | search (d : SearchData)
  | plan (p : PlanDoc)
deriving DecidableEq

/-! ### The TTL cache (`searchCache`, lines 15-16, 24-28, 104-107, 126-130,
232-235) -/

/-- `CACHE_DURATION = 1000 * 60 * 30` milliseconds (line 15). -/
def CACHE_DURATION : Int := 1000 * 60 * 30

/-- The global `searchCache` `Map`, as a key-indexed store of
`{timestamp, data}` entries. -/
def Cache : Type := String → Option (Int × CacheValue)

/-- The cache with no entries. -/
def cacheEmpty : Cache := fun _ => none

/-- The compound read performed at lines 25-28 / 127-130:
`searchCache.get(key)` followed by the freshness test
`Date.now() - entry.timestamp < CACHE_DURATION`.  A stale or missing entry
reads as `none` (the code never deletes stale entries; it just ignores and
later overwrites them). -/
def cacheGet (c : Cache) (k : String) (now : Int) : Option CacheValue :=
  match c k with
  | some (ts, v) => if now - ts < CACHE_DURATION then some v else none
  | none => none

/-- `searchCache.set(key, { timestamp: Date.now(), data })`
(lines 104-107 / 232-235): unconditional overwrite. -/
def cachePut (c : Cache) (k : String) (now : Int) (v : CacheValue) : Cache :=
  fun q => if q = k then some (now, v) else c q

/-! ### Cache keys -/

/-- Line 24: `` `${subject}-${isStudyPlan}`.toLowerCase().trim() ``.
Note that `trim` is applied to the whole concatenation, after the `-flag`
suffix has been attached. -/
def searchCacheKey (subject : String) (isStudyPlan : Bool) : String :=
  jsTrim (jsToLower (subject ++ "-" ++ jsBoolString isStudyPlan))

/-- Line 126: `` `plan-${subject}-${examDate}`.toLowerCase() `` (no trim). -/
def planCacheKey (subject examDate : String) : String :=
  jsToLower ("plan-" ++ subject ++ "-" ++ examDate)

/-! ### Filter / rank / dedup (lines 79-97) -/

/-- The filtering predicate of lines 79-85: title contains the subject
(case-insensitively), content longer than 100 characters, and the title does
not contain `'sponsored'`. -/
def keepResult (subject : String) (r : RawResult) : Bool :=
  containsSub (jsToLower r.title) (jsToLower subject) &&
  decide (r.content.length > 100) &&
  !(containsSub (jsToLower r.title) "sponsored")

/-- The composite sort key of lines 89-90:
`(relevance_score || 0) + (timestamp ? new Date(timestamp).getTime() : 0)`. -/
def score (r : RawResult) : Int :=
  r.relevance_score.getD 0 + r.timestamp.getD 0

/-- Insert into a descending-by-`score` list, keeping earlier-inserted
elements first on ties (stability). -/
def insertDesc (r : RawResult) : List RawResult → List RawResult
  | [] => [r]
  | x :: xs => if score x ≤ score r then r :: x :: xs else x :: insertDesc r xs

/-- Lines 88-92: `combinedResults.sort((a, b) => scoreB - scoreA)` — a stable
descending sort by `score` (ECMAScript sort is stable; ties keep traversal
order). -/
def sortByScore (l : List RawResult) : List RawResult :=
  l.foldr insertDesc []

/-- `Map.prototype.set` on an association list: if the key is present, the
value at its original position is overwritten; otherwise the pair is appended
(JS `Map` iteration follows first-insertion order of keys). -/
def jsMapInsert {α : Type} (m : List (String × α)) (k : String) (v : α) :
    List (String × α) :=
  if m.any (fun p => p.1 == k) then
    m.map (fun p => if p.1 == k then (k, v) else p)
  else
    m ++ [(k, v)]

/-- `new Map(pairs)`: successive `set`s of each pair. -/
def jsMapOfPairs {α : Type} (ps : List (String × α)) : List (String × α) :=
  ps.foldl (fun m p => jsMapInsert m p.1 p.2) []

/-- Lines 95-97: `Array.from(new Map(sorted.map(item => [item.url, item]))
.values())` — deduplicate by URL with JS `Map` semantics. -/
def dedupByUrl (l : List RawResult) : List RawResult :=
  (jsMapOfPairs (l.map (fun r => (r.url, r)))).map Prod.snd

/-! ### `searchTavily` (lines 22-114) -/

/-- Oracles and clock for one `searchTavily` execution.
`videoFetch` / `platformFetch` are the joint outcomes of
`fetch(...).then(res => res.json()).results` for the two sub-queries
(lines 31-73); `.error ()` is a rejected promise (network error, JSON
decoding error, or a response without a usable `results` array — all of which
land in the same `catch`).  `guide` is the outcome of
`generateStudyGuide(subject)` (lines 116-121). -/
structure SearchEnv where
  videoFetch : Except Unit (List RawResult)
  platformFetch : Except Unit (List RawResult)
  guide : Except Unit String
  now : Int

/-- What one call of `searchTavily` produces: the returned value (the cached
`data` can in principle be any `CacheValue` since the `Map` is shared with
`generateStudyPlan`), the cache after the call, and how many provider
requests and generative-model invocations were performed. -/
structure SearchOutcome where
  data : CacheValue
  cache : Cache
  providerCalls : Nat
  modelCalls : Nat

/-- Lines 22-114.  Cache hit: return the entry's `data`, touching nothing.
Cache miss: `Promise.all` over the two provider calls — if either rejects the
whole `try` block aborts into the `catch`, which returns
`{results: [], answer: ''}` (line 112) without writing the cache.  On joint
success the results are filtered, sorted, URL-deduplicated and truncated to
5; for study plans the guide model is invoked (its failure also aborts into
the `catch`); finally the payload is cached and returned. -/
def searchTavily (env : SearchEnv) (cache : Cache) (subject : String)
    (isStudyPlan : Bool) : SearchOutcome :=
  let cacheKey := searchCacheKey subject isStudyPlan
  match cacheGet cache cacheKey env.now with
  | some v => ⟨v, cache, 0, 0⟩
  | none =>
    match env.videoFetch, env.platformFetch with
    | .ok videoResults, .ok platformResults =>
      let combinedResults := (videoResults ++ platformResults).filter (keepResult subject)
      let sortedResults := sortByScore combinedResults
      let uniqueResults := (dedupByUrl sortedResults).take 5
      if isStudyPlan then
        match env.guide with
        | .ok answer =>
          let d : SearchData := ⟨uniqueResults, answer⟩
          ⟨.search d, cachePut cache cacheKey env.now (.search d), 2, 1⟩
        | .error _ => ⟨.search ⟨[], ""⟩, cache, 2, 1⟩
      else
        let d : SearchData := ⟨uniqueResults, ""⟩
        ⟨.search d, cachePut cache cacheKey env.now (.search d), 2, 0⟩
    | _, _ => ⟨.search ⟨[], ""⟩, cache, 2, 0⟩

/-! ### `generateStudyPlan` (lines 124-242) -/

/-- The distinct ways `generateStudyPlan`'s `try` block can throw:
`provider` — the `Promise.all` over the two Tavily fetches rejected
(lines 133-172); `model` — `model.generateContent` threw (lines 219-227);
`parse` — `JSON.parse` of the fence-stripped response threw (line 229). -/
inductive PlanError where
  | provider
  | model
  | parse
deriving DecidableEq

/-- Days-until-exam, line 174-176:
`Math.ceil((examMs - nowMs) / 86400000)` with exact ceiling division. -/
def ceilDiv (a b : Int) : Int := -(Int.fdiv (-a) b)

/-- `daysUntilExam` as computed at lines 174-176. -/
def daysUntilExam (examMs nowMs : Int) : Int :=
  ceilDiv (examMs - nowMs) (1000 * 3600 * 24)

/-- Lines 179-184: join the first-300-character excerpts with newlines. -/
def excerpts (rs : List RawResult) : String :=
  String.intercalate "\n" (rs.map (fun r => jsSubstring r.content 0 300))

/-- The prompt template of lines 187-217 (the JSON skeleton shown to the
model is reproduced with escaped braces; its exact text is inert for every
claim). -/
def buildPlanPrompt (subject examDate : String) (days : Int)
    (curriculumContent studyTips : String) : String :=
  "Create a " ++ toString days ++ "-day study plan for " ++ subject ++
  ".\n\nCurriculum Context:\n" ++ curriculumContent ++
  "\n\nStudy Tips:\n" ++ studyTips ++
  "\n\nReturn a focused JSON study plan with:\n\x7b\n  \"overview\": \x7b\n    \"subject\": \"" ++
  subject ++ "\",\n    \"duration\": \"" ++ toString days ++
  " days\",\n    \"examDate\": \"" ++ examDate ++
  "\",\n    \"mainTopics\": [\"Topic 1\", \"Topic 2\"]\n  \x7d,\n  \"weeklyPlans\": [...],\n  \"recommendations\": [\"Tip 1\", \"Tip 2\"]\n\x7d"

/-- Oracles and clock for one `generateStudyPlan` execution.
`curriculumFetch` / `resourceFetch` are the outcomes of the two provider
calls (lines 133-172); `examMs` is `new Date(examDate).getTime()`; `model`
maps the composed prompt to the text of `result.response.text()` or a thrown
invocation error; `parsePlan` is `JSON.parse` composed with the
fence-stripping `replace(...).trim()` of line 229 (`none` = `SyntaxError`). -/
structure PlanEnv where
  curriculumFetch : Except Unit (List RawResult)
  resourceFetch : Except Unit (List RawResult)
  now : Int
  examMs : Int
  model : String → Except Unit String
  parsePlan : String → Option PlanDoc

/-- Lines 124-242.  Cache hit returns the entry's `data` untouched.  On a
miss the two fetches are joined by `Promise.all` (either rejection aborts
into the `catch`, which **rethrows**, line 240); then the day count, the
excerpts and the prompt are computed, the model is invoked, its output is
parsed, and only a successfully parsed plan is written to the cache
(lines 232-235) and returned.  Every failure leaves the cache unchanged. -/
def generateStudyPlan (env : PlanEnv) (cache : Cache)
    (subject examDate : String) : Except PlanError CacheValue × Cache :=
  let cacheKey := planCacheKey subject examDate
  match cacheGet cache cacheKey env.now with
  | some v => (.ok v, cache)
  | none =>
    match env.curriculumFetch, env.resourceFetch with
    | .ok curriculumResults, .ok resourceResults =>
      let days := daysUntilExam env.examMs env.now
      let curriculumContent := excerpts curriculumResults
      let studyTips := excerpts resourceResults
      let prompt := buildPlanPrompt subject examDate days curriculumContent studyTips
      match env.model prompt with
      | .ok text =>
        match env.parsePlan text with
        | some plan =>
          (.ok (.plan plan), cachePut cache cacheKey env.now (.plan plan))
        | none => (.error .parse, cache)
      | .error _ => (.error .model, cache)
    | _, _ => (.error .provider, cache)

/-! ### The HTTP route handlers (lines 245-303) -/

/-- A JSON response body sent by the two endpoints. -/
inductive ApiBody where
  | plan (v : CacheValue)
  | resources (r : ResourcesDoc)
  | err (msg : String)
deriving DecidableEq

/-- An HTTP response: status code plus JSON body. -/
structure HttpResponse where
  status : Nat
  body : ApiBody
deriving DecidableEq

/-- `POST /api/plan` (lines 245-254): forward to `generateStudyPlan`; any
thrown error becomes `500 {error: 'Failed to generate plan'}`. -/
def planHandler (env : PlanEnv) (cache : Cache) (subject examDate : String) :
    HttpResponse × Cache :=
  match generateStudyPlan env cache subject examDate with
  | (.ok plan, c) => (⟨200, .plan plan⟩, c)
  | (.error _, c) => (⟨500, .err "Failed to generate plan"⟩, c)

/-- One element of the `relevantContent` array built at lines 263-269. -/
structure RelevantItem where
  title : String
  url : String
  description : String
  source : String
  publishDate : String
deriving DecidableEq

/-- Lines 263-269 for a single result: `new URL(result.url).hostname` can
throw (oracle returns `none` for an unparsable URL); `publishDate` is
`result.timestamp || 'N/A'`. -/
def relevantItem (hostname : String → Option String) (r : RawResult) :
    Option RelevantItem :=
  (hostname r.url).map (fun h =>
    ⟨r.title, r.url, jsSubstring r.content 0 300, h,
     match r.timestamp with | some t => toString t | none => "N/A"⟩)

/-- Lines 263-269: the `.map` over `searchData.results` throws at the first
unparsable URL. -/
def relevantContent (hostname : String → Option String)
    (rs : List RawResult) : Option (List RelevantItem) :=
  rs.mapM (relevantItem hostname)

/-- A rendering of one item standing in for `JSON.stringify` (string escaping
omitted; the prompt text is inert for every claim). -/
def stringifyItem (it : RelevantItem) : String :=
  "\x7b\"title\":\"" ++ it.title ++ "\",\"url\":\"" ++ it.url ++
  "\",\"description\":\"" ++ it.description ++ "\",\"source\":\"" ++ it.source ++
  "\",\"publishDate\":\"" ++ it.publishDate ++ "\"\x7d"

/-- The curation prompt of lines 271-289. -/
def buildCuratePrompt (subject : String) (items : List RelevantItem) : String :=
  "As an expert educator, analyze and curate the 5 most effective learning resources for " ++
  subject ++
  ".\nConsider factors like content quality, learning approach, and user engagement.\n\nAnalyze these resources:\n[" ++
  String.intercalate "," (items.map stringifyItem) ++
  "]\n\nReturn in JSON format:\n\x7b\n  \"resources\": [...]\n\x7d"

/-- Oracles for one `/api/curate` execution.  `model` maps the curation
prompt to the response text; a thrown invocation error carries whether
`error.name === 'AbortError'` (the only error kind the handler distinguishes,
lines 297-301).  `parseResources` is `JSON.parse` after fence stripping
(line 292). -/
structure CurateEnv where
  searchEnv : SearchEnv
  hostname : String → Option String
  model : String → Except Bool String
  parseResources : String → Option ResourcesDoc

/-- What one `/api/curate` request produces: the HTTP response, the cache
afterwards, and the number of provider requests and generative-model
invocations performed anywhere in the request (inside `searchTavily` or in
the handler itself). -/
structure CurateOutcome where
  response : HttpResponse
  cache : Cache
  providerCalls : Nat
  modelCalls : Nat

/-- `POST /api/curate` (lines 257-303): run `searchTavily(subject)` (which
never throws), build `relevantContent` (a thrown URL `TypeError` — or a
cached value that is not a search payload, whose `.results` is `undefined` —
lands in the `catch`), invoke the curation model **unconditionally**, parse
its output, and send it.  The `catch` sends `504 {error: 'Request timeout'}`
for `AbortError` and `500 {error: 'Failed to curate resources'}` otherwise.
Nothing in this handler writes the cache: only the raw search payload inside
`searchTavily` is cached, never the synthesized resources. -/
def curateHandler (env : CurateEnv) (cache : Cache) (subject : String) :
    CurateOutcome :=
  let so := searchTavily env.searchEnv cache subject false
  match so.data with
  | .plan _ => ⟨⟨500, .err "Failed to curate resources"⟩, so.cache, so.providerCalls, so.modelCalls⟩
  | .search d =>
    match relevantContent env.hostname d.results with
    | none => ⟨⟨500, .err "Failed to curate resources"⟩, so.cache, so.providerCalls, so.modelCalls⟩
    | some items =>
      match env.model (buildCuratePrompt subject items) with
      | .error true => ⟨⟨504, .err "Request timeout"⟩, so.cache, so.providerCalls, so.modelCalls + 1⟩
      | .error false => ⟨⟨500, .err "Failed to curate resources"⟩, so.cache, so.providerCalls, so.modelCalls + 1⟩
      | .ok text =>
        match env.parseResources text with
        | some resources => ⟨⟨200, .resources resources⟩, so.cache, so.providerCalls, so.modelCalls + 1⟩
        | none => ⟨⟨500, .err "Failed to curate resources"⟩, so.cache, so.providerCalls, so.modelCalls + 1⟩

/-! ### Concrete instances used by individual claim theorems -/

/-- 101 `'a'`s: long enough to pass the `content.length > 100` filter. -/
def cexC1content : String := ⟨List.replicate 101 'a'⟩

/-- A filter-passing result from the second (platform) provider. -/
def cexC1r1 : RawResult := ⟨"https://b.com/1", "python course one", cexC1content, none, none⟩

/-- A second filter-passing platform result. -/
def cexC1r2 : RawResult := ⟨"https://b.com/2", "python course two", cexC1content, none, none⟩

/-- A third filter-passing platform result. -/
def cexC1r3 : RawResult := ⟨"https://b.com/3", "python course three", cexC1content, none, none⟩

/-- Provider A (video) rejects, provider B (platform) returns 3 usable
results. -/
def cexC1envFail : SearchEnv := ⟨.error (), .ok [cexC1r1, cexC1r2, cexC1r3], .ok "guide", 0⟩

/-- The same request with provider A returning zero results instead of
rejecting: B's 3 results survive the pipeline. -/
def cexC1envOk : SearchEnv := ⟨.ok [], .ok [cexC1r1, cexC1r2, cexC1r3], .ok "guide", 0⟩

/-- A raw search payload sitting in the cache for claim C2. -/
def cexC2data : SearchData := ⟨[⟨"https://a.com/x", "t", "c", none, none⟩], ""⟩

/-- A cache holding a live entry for the key of subject `"python"`. -/
def cexC2cache : Cache :=
  cachePut cacheEmpty (searchCacheKey "python" false) 0 (.search cexC2data)

/-- A curate environment whose oracles all succeed, with `now` well inside
the TTL of the entry in `cexC2cache`. -/
def cexC2env : CurateEnv :=
  ⟨⟨.ok [], .ok [], .ok "", 1000⟩, fun _ => some "a.com",
   fun _ => .ok "txt", fun _ => some ⟨"doc"⟩⟩

/-- A plan environment in which the model invocation itself throws
("model unreachable"). -/
def cexC3envModel : PlanEnv :=
  ⟨.ok [], .ok [], 0, 86400000, fun _ => .error (), fun _ => none⟩

/-- A plan environment in which the model answers but its output fails to
parse ("model produced garbage"). -/
def cexC3envParse : PlanEnv :=
  ⟨.ok [], .ok [], 0, 86400000, fun _ => .ok "garbage", fun _ => none⟩

/-- First of two results sharing one URL but with different titles. -/
def cexC5r1 : RawResult := ⟨"https://a.com/x", "Title One", "c", none, none⟩

/-- Second of two results sharing one URL but with different titles. -/
def cexC5r2 : RawResult := ⟨"https://a.com/x", "Title Two", "c", none, none⟩

/-- Witness result with relevance 5 and an early timestamp. -/
def witC6r1 : RawResult := ⟨"u1", "a", "c", some 5, some 0⟩

/-- Witness result with relevance 1 and a hugely later timestamp. -/
def witC6r2 : RawResult := ⟨"u2", "b", "c", some 1, some 1000000000⟩

/-- A fully successful plan environment whose exam date lies in the past
(`examMs = -5 < now = 0`). -/
def witC8env : PlanEnv :=
  ⟨.ok [], .ok [], 0, -5, fun _ => .ok "t", fun _ => some ⟨"plan"⟩⟩

/-- A search environment in which the first provider rejects. -/
def witC9env : SearchEnv := ⟨.error (), .error (), .error (), 0⟩

/-- A plan environment whose curriculum fetch rejects. -/
def witC10env : PlanEnv :=
  ⟨.error (), .ok [], 0, 0, fun _ => .ok "t", fun _ => none⟩

/-! ## Helper lemmas: the JS `Map` association-list embedding -/

/-- If some key of `m` equals `u`, replacing every `u`-keyed entry by
`(u, v)` makes `(u, v)` the first `u`-keyed entry. -/
theorem find?_map_replace {α : Type} (u : String) (v : α) :
    ∀ m : List (String × α), m.any (fun p => p.1 == u) = true →
      (m.map (fun p => if p.1 == u then (u, v) else p)).find? (fun p => p.1 == u)
        = some (u, v) := by
  intro m
  induction m with
  | nil => intro h; simp at h
  | cons q m ih =>
    intro h
    simp only [List.map_cons, List.find?_cons]
    by_cases hq : (q.1 == u) = true
    · rw [if_pos hq]
      have h1 : (((u, v) : String × α).1 == u) = true := by simp
      rw [h1]
    · rw [if_neg hq]
      have hqf : (q.1 == u) = false := Bool.eq_false_iff.mpr hq
      have h2 : (m.any fun p => p.1 == u) = true := by
        rcases List.any_eq_true.mp h with ⟨x, hx, hxu⟩
        rcases List.mem_cons.mp hx with rfl | hx2
        · exact absurd hxu hq
        · exact List.any_eq_true.mpr ⟨x, hx2, hxu⟩
      rw [hqf]
      exact ih h2

/-- Replacing every `k`-keyed entry leaves `find?` for a different key `u`
unchanged. -/
theorem find?_map_replace_ne {α : Type} (k u : String) (v : α) (hku : k ≠ u) :
    ∀ m : List (String × α),
      (m.map (fun p => if p.1 == k then (k, v) else p)).find? (fun p => p.1 == u)
        = m.find? (fun p => p.1 == u) := by
  intro m
  induction m with
  | nil => rfl
  | cons q m ih =>
    simp only [List.map_cons, List.find?_cons]
    by_cases hq : (q.1 == k) = true
    · rw [if_pos hq]
      have h1 : ((k : String) == u) = false := beq_eq_false_iff_ne.mpr hku
      have h2 : (q.1 == u) = false := by rw [beq_iff_eq.mp hq]; exact h1
      have h3 : (((k, v) : String × α).1 == u) = false := h1
      rw [h2, h3]
      exact ih
    · rw [if_neg hq]
      by_cases hu : (q.1 == u) = true
      · rw [hu]
      · have huf : (q.1 == u) = false := Bool.eq_false_iff.mpr hu
        rw [huf]
        exact ih

/-- `find?` for key `u` after inserting `(u, v)` yields `(u, v)`. -/
theorem jsMapInsert_find?_self {α : Type} (m : List (String × α)) (u : String) (v : α) :
    (jsMapInsert m u v).find? (fun p => p.1 == u) = some (u, v) := by
  unfold jsMapInsert
  by_cases h : m.any (fun p => p.1 == u)
  · rw [if_pos h]; exact find?_map_replace u v m h
  · rw [if_neg h, List.find?_append]
    have hm : m.find? (fun p => p.1 == u) = none := by
      rw [List.find?_eq_none]
      intro x hx hxu
      exact h (List.any_eq_true.mpr ⟨x, hx, hxu⟩)
    simp [hm, List.find?_cons]

/-- `find?` for key `u` is unchanged by inserting a different key `k`. -/
theorem jsMapInsert_find?_ne {α : Type} (m : List (String × α)) (k u : String) (v : α)
    (hku : k ≠ u) :
    (jsMapInsert m k v).find? (fun p => p.1 == u) = m.find? (fun p => p.1 == u) := by
  unfold jsMapInsert
  by_cases h : m.any (fun p => p.1 == k)
  · rw [if_pos h]; exact find?_map_replace_ne k u v hku m
  · rw [if_neg h, List.find?_append]
    have h1 : ((k : String) == u) = false := beq_eq_false_iff_ne.mpr hku
    simp [List.find?_cons, h1]

/-- Folding `jsMapInsert` over `ps`: `find?` sees the **last** write of a key
(first in `ps.reverse`), falling back to the initial map. -/
theorem jsMapFold_find? {α : Type} (u : String) :
    ∀ (ps m : List (String × α)),
      ((ps.foldl (fun m p => jsMapInsert m p.1 p.2) m).find? (fun p => p.1 == u))
        = (ps.reverse.find? (fun p => p.1 == u)).or (m.find? (fun p => p.1 == u)) := by
  intro ps
  induction ps with
  | nil => intro m; simp
  | cons p ps ih =>
    intro m
    obtain ⟨k, v⟩ := p
    rw [List.foldl_cons, ih, List.reverse_cons, List.find?_append, Option.or_assoc]
    congr 1
    by_cases hk : k = u
    · subst hk
      rw [jsMapInsert_find?_self]
      simp [List.find?_cons]
    · rw [jsMapInsert_find?_ne _ _ _ _ hk]
      have h1 : ((k : String) == u) = false := beq_eq_false_iff_ne.mpr hk
      simp [List.find?_cons, h1]

/-- The keys after a `jsMapInsert`. -/
theorem jsMapInsert_keys {α : Type} (m : List (String × α)) (k : String) (v : α) :
    (jsMapInsert m k v).map Prod.fst =
      if m.any (fun p => p.1 == k) then m.map Prod.fst else m.map Prod.fst ++ [k] := by
  unfold jsMapInsert
  by_cases h : m.any (fun p => p.1 == k)
  · rw [if_pos h, if_pos h, List.map_map]
    apply List.map_congr_left
    intro p hp
    show ((if (p.1 == k) = true then (k, v) else p)).1 = p.1
    by_cases hq : (p.1 == k) = true
    · rw [if_pos hq]
      exact (beq_iff_eq.mp hq).symm
    · rw [if_neg hq]
  · rw [if_neg h, if_neg h]; simp

/-- `jsMapInsert` preserves distinctness of keys. -/
theorem jsMapInsert_keys_nodup {α : Type} (m : List (String × α)) (k : String) (v : α)
    (h : (m.map Prod.fst).Nodup) : ((jsMapInsert m k v).map Prod.fst).Nodup := by
  rw [jsMapInsert_keys]
  by_cases ha : m.any (fun p => p.1 == k)
  · rw [if_pos ha]; exact h
  · rw [if_neg ha, List.nodup_append]
    refine ⟨h, List.nodup_singleton _, ?_⟩
    intro a haK haS
    rw [List.mem_singleton] at haS
    subst haS
    rw [List.mem_map] at haK
    obtain ⟨p, hp, hpk⟩ := haK
    apply ha
    rw [List.any_eq_true]
    refine ⟨p, hp, ?_⟩
    exact beq_iff_eq.mpr hpk

/-- A folded JS map has distinct keys. -/
theorem jsMapFold_keys_nodup {α : Type} :
    ∀ (ps m : List (String × α)), (m.map Prod.fst).Nodup →
      (((ps.foldl (fun m p => jsMapInsert m p.1 p.2) m)).map Prod.fst).Nodup := by
  intro ps
  induction ps with
  | nil => intro m h; exact h
  | cons p ps ih =>
    intro m h
    rw [List.foldl_cons]
    exact ih _ (jsMapInsert_keys_nodup m p.1 p.2 h)

/-- In a list with distinct keys, filtering by one key is the same as taking
the unique `find?` hit. -/
theorem filter_eq_find?_toList {α : Type} (u : String) :
    ∀ m : List (String × α), (m.map Prod.fst).Nodup →
      m.filter (fun p => p.1 == u) = (m.find? (fun p => p.1 == u)).toList := by
  intro m
  induction m with
  | nil => intro _; rfl
  | cons q m ih =>
    intro h
    rw [List.map_cons, List.nodup_cons] at h
    obtain ⟨hq, hm⟩ := h
    by_cases hqu : (q.1 == u) = true
    · have hq1 : q.1 = u := beq_iff_eq.mp hqu
      have hnil : m.filter (fun p => p.1 == u) = [] := by
        rw [List.filter_eq_nil_iff]
        intro p hp hpu
        exact hq (List.mem_map.mpr ⟨p, hp, (beq_iff_eq.mp hpu).symm ▸ hq1.symm⟩)
      simp [List.filter_cons, List.find?_cons, hqu, hnil]
    · simp [List.filter_cons, List.find?_cons, hqu, ih hm]

/-- Every entry of `jsMapInsert m k v` is an entry of `m` or is `(k, v)`. -/
theorem jsMapInsert_mem {α : Type} {q : String × α} {m : List (String × α)}
    {k : String} {v : α} (h : q ∈ jsMapInsert m k v) : q ∈ m ∨ q = (k, v) := by
  unfold jsMapInsert at h
  by_cases ha : m.any (fun p => p.1 == k)
  · rw [if_pos ha, List.mem_map] at h
    obtain ⟨p, hp, hpq⟩ := h
    by_cases hpk : (p.1 == k) = true
    · right; rw [← hpq]; simp [hpk]
    · left; rw [← hpq]; simpa [hpk] using hp
  · rw [if_neg ha, List.mem_append, List.mem_singleton] at h
    exact h

/-- Every entry of a folded JS map comes from the initial map or the pair
list. -/
theorem jsMapFold_mem {α : Type} :
    ∀ (ps m : List (String × α)) (q : String × α),
      q ∈ ps.foldl (fun m p => jsMapInsert m p.1 p.2) m → q ∈ m ∨ q ∈ ps := by
  intro ps
  induction ps with
  | nil => intro m q h; exact Or.inl h
  | cons p ps ih =>
    intro m q h
    rw [List.foldl_cons] at h
    rcases ih _ q h with h1 | h1
    · rcases jsMapInsert_mem h1 with h2 | h2
      · exact Or.inl h2
      · exact Or.inr (by rw [h2]; exact List.mem_cons_self _ _)
    · exact Or.inr (List.mem_cons_of_mem _ h1)

/-! ## Claim C1 — fan-out partial-failure tolerance -/

/-- C1 counterexample: with an empty cache, provider A (video) rejecting and
provider B (platform) returning 3 filter-passing results, `searchTavily`
returns the emptied fallback `{results: [], answer: ''}` — it does **not**
proceed with B's results, although the identical request with A returning
zero results instead of rejecting would have produced exactly B's 3 results.
This refutes the claim that a single provider failure does not abort (or
empty) the stage. -/
theorem claim_C1_counterexample :
    (searchTavily cexC1envFail cacheEmpty "python" false).data = .search ⟨[], ""⟩ ∧
    cexC1envFail.platformFetch = .ok [cexC1r1, cexC1r2, cexC1r3] ∧
    (searchTavily cexC1envOk cacheEmpty "python" false).data
      = .search ⟨[cexC1r1, cexC1r2, cexC1r3], ""⟩ :=
  ⟨rfl, rfl, rfl⟩

/-- C1 (amended): in the search fan-out stage the sub-queries are joined with
`Promise.all`, so the failure of a single provider sub-query aborts the whole
stage: the `catch` returns the empty fallback `{results: [], answer: ''}`
(without caching anything), and the successful provider's results are
discarded rather than used. -/
theorem claim_C1_amended (env : SearchEnv) (cache : Cache) (s : String) (f : Bool)
    (rs : List RawResult)
    (hmiss : cacheGet cache (searchCacheKey s f) env.now = none)
    (hvideo : env.videoFetch = .error ())
    (hplat : env.platformFetch = .ok rs) :
    (searchTavily env cache s f).data = .search ⟨[], ""⟩ ∧
    (searchTavily env cache s f).cache = cache := by
  constructor <;> simp [searchTavily, hmiss, hvideo, hplat]

/-- C1 witness: the amended theorem applied at the concrete failing
environment. -/
theorem claim_C1_amended_witness :
    (searchTavily cexC1envFail cacheEmpty "python" false).cache = cacheEmpty :=
  (claim_C1_amended cexC1envFail cacheEmpty "python" false
    [cexC1r1, cexC1r2, cexC1r3] rfl rfl rfl).2

/-! ## Claim C2 — cache hit short-circuits the whole pipeline? -/

/-- C2 counterexample: with a live (within-TTL) cache entry for the key of
subject `"python"`, the `/api/curate` request performs 0 provider queries but
still performs 1 generative-model invocation (the curation synthesis at
line 291 runs on every request, cache hit or not).  This refutes the claim
that a second identical request performs no synthesis invocation. -/
theorem claim_C2_counterexample :
    cacheGet cexC2cache (searchCacheKey "python" false) cexC2env.searchEnv.now
      = some (.search cexC2data) ∧
    (curateHandler cexC2env cexC2cache "python").providerCalls = 0 ∧
    (curateHandler cexC2env cexC2cache "python").modelCalls = 1 :=
  ⟨rfl, rfl, rfl⟩

/-- C2 (amended): on a live cache hit, `searchTavily` returns the cached
payload with no provider query and no study-guide model call, and the cache
is untouched; but the curation-synthesis model is still invoked (exactly
once) whenever the pipeline reaches it — only the raw search payload is
served from the cache, the synthesis is re-run on every request. -/
theorem claim_C2_amended (env : CurateEnv) (cache : Cache) (s : String)
    (v : CacheValue)
    (hhit : cacheGet cache (searchCacheKey s false) env.searchEnv.now = some v) :
    searchTavily env.searchEnv cache s false = ⟨v, cache, 0, 0⟩ ∧
    (curateHandler env cache s).providerCalls = 0 ∧
    (∀ d items, v = .search d →
      relevantContent env.hostname d.results = some items →
      (curateHandler env cache s).modelCalls = 1) := by
  have hsearch : searchTavily env.searchEnv cache s false = ⟨v, cache, 0, 0⟩ := by
    simp [searchTavily, hhit]
  refine ⟨hsearch, ?_, ?_⟩
  · unfold curateHandler
    rw [hsearch]
    dsimp only
    cases v with
    | plan p => rfl
    | search d =>
      dsimp only
      cases hrc : relevantContent env.hostname d.results with
      | none => rfl
      | some items =>
        dsimp only
        cases hm : env.model (buildCuratePrompt s items) with
        | error b => cases b <;> rfl
        | ok text =>
          dsimp only
          cases env.parseResources text <;> rfl
  · intro d items hd hitems
    subst hd
    unfold curateHandler
    rw [hsearch]
    dsimp only
    rw [hitems]
    dsimp only
    cases hm : env.model (buildCuratePrompt s items) with
    | error b => cases b <;> rfl
    | ok text =>
      dsimp only
      cases env.parseResources text <;> rfl

/-- C2 witness: the amended theorem applied at the concrete environment with
a live cache entry. -/
theorem claim_C2_amended_witness :
    (curateHandler cexC2env cexC2cache "python").modelCalls = 1 ∧
    (curateHandler cexC2env cexC2cache "python").providerCalls = 0 := by
  have h := claim_C2_amended cexC2env cexC2cache "python" (.search cexC2data) rfl
  exact ⟨h.2.2 cexC2data [⟨"t", "https://a.com/x", "c", "a.com", "N/A"⟩] rfl rfl, h.2.1⟩

/-! ## Claim C3 — typed, distinguishable failures? -/

/-- C3 counterexample: a model-invocation failure and a parse failure — two
different failure kinds of `generateStudyPlan` — produce the **identical**
generic `500 {error: 'Failed to generate plan'}` response from `/api/plan`,
so the failure kinds are not distinguishable to the caller. -/
theorem claim_C3_counterexample :
    (generateStudyPlan cexC3envModel cacheEmpty "math" "2025-06-01").1
      = .error .model ∧
    (generateStudyPlan cexC3envParse cacheEmpty "math" "2025-06-01").1
      = .error .parse ∧
    (planHandler cexC3envModel cacheEmpty "math" "2025-06-01").1
      = ⟨500, .err "Failed to generate plan"⟩ ∧
    (planHandler cexC3envParse cacheEmpty "math" "2025-06-01").1
      = ⟨500, .err "Failed to generate plan"⟩ :=
  ⟨rfl, rfl, rfl, rfl⟩

/-- C3 (amended): neither operation returns a typed, distinguishable
failure.  `/api/plan` answers every request either with a 200 or with the
single generic body `500 {error: 'Failed to generate plan'}`, whatever the
failure kind; `/api/curate` answers either with a 200, with the generic
`500 {error: 'Failed to curate resources'}`, or with
`504 {error: 'Request timeout'}` (reserved for `AbortError`), so in
particular a malformed-model-output parse failure and a model-unreachable
network failure receive identical responses. -/
theorem claim_C3_amended :
    (∀ (env : PlanEnv) (cache : Cache) (s d : String),
      (planHandler env cache s d).1.status = 200 ∨
      (planHandler env cache s d).1 = ⟨500, .err "Failed to generate plan"⟩) ∧
    (∀ (env : CurateEnv) (cache : Cache) (s : String),
      (curateHandler env cache s).response.status = 200 ∨
      (curateHandler env cache s).response = ⟨500, .err "Failed to curate resources"⟩ ∨
      (curateHandler env cache s).response = ⟨504, .err "Request timeout"⟩) := by
  constructor
  · intro env cache s d
    unfold planHandler
    rcases hg : generateStudyPlan env cache s d with ⟨r, c⟩
    cases r with
    | ok p => left; rfl
    | error e => right; rfl
  · intro env cache s
    unfold curateHandler
    dsimp only
    cases (searchTavily env.searchEnv cache s false).data with
    | plan p => right; left; rfl
    | search d =>
      dsimp only
      cases relevantContent env.hostname d.results with
      | none => right; left; rfl
      | some items =>
        dsimp only
        cases env.model (buildCuratePrompt s items) with
        | error b =>
          cases b with
          | false => right; left; rfl
          | true => right; right; rfl
        | ok text =>
          dsimp only
          cases env.parseResources text with
          | some r => left; rfl
          | none => right; left; rfl

/-! ## Claim C4 — cache-key normalization -/

/-- C4 counterexample: `"Python"` and `" python "` (same plan flag) derive
**different** cache keys, because `trim` runs on the whole concatenated
template string: the subject's trailing space survives as an interior space
in `"python -false"`.  The plan key does not trim at all, so even a leading
space separates plan keys. -/
theorem claim_C4_counterexample :
    searchCacheKey "Python" false ≠ searchCacheKey " python " false ∧
    searchCacheKey "Python" false = "python-false" ∧
    searchCacheKey " python " false = "python -false" ∧
    planCacheKey " python" "2025-06-01" ≠ planCacheKey "python" "2025-06-01" :=
  ⟨by decide, by decide, by decide, by decide⟩

/-- Dropping leading whitespace skips any run of leading spaces. -/
theorem dropWhile_replicate_space (k : Nat) (X : List Char) :
    (List.replicate k ' ' ++ X).dropWhile isJsSpace = X.dropWhile isJsSpace := by
  induction k with
  | zero => simp
  | succ k ih =>
    have hsp : isJsSpace ' ' = true := rfl
    simp only [List.replicate_succ, List.cons_append, List.dropWhile_cons, hsp, if_true]
    exact ih

/-- The character list of a search cache key. -/
theorem searchCacheKey_data (cs : List Char) (f : Bool) :
    searchCacheKey (String.mk cs) f =
      String.mk ((((cs ++ ("-" ++ jsBoolString f).data).map
          Char.toLower).dropWhile isJsSpace).reverse.dropWhile isJsSpace).reverse := by
  unfold searchCacheKey jsTrim jsToLower
  congr 2
  simp only [String.data_append, List.append_assoc]

/-- C4 (amended): cache-key normalization lower-cases the whole concatenated
key but trims only its outer ends.  Requests identical up to letter case and
**leading** subject whitespace normalize to the same search key, and plan
keys agree for subjects/dates identical up to letter case; but trailing
subject whitespace survives as an interior character of the key (see the
counterexample), so `"Python"` and `" python "` normalize differently. -/
theorem claim_C4_amended :
    (∀ (l1 l2 : List Char) (f : Bool) (k : Nat),
      l1.map Char.toLower = l2.map Char.toLower →
      searchCacheKey (String.mk (List.replicate k ' ' ++ l1)) f
        = searchCacheKey (String.mk l2) f) ∧
    (∀ (s1 s2 d1 d2 : List Char),
      s1.map Char.toLower = s2.map Char.toLower →
      d1.map Char.toLower = d2.map Char.toLower →
      planCacheKey (String.mk s1) (String.mk d1)
        = planCacheKey (String.mk s2) (String.mk d2)) := by
  constructor
  · intro l1 l2 f k h
    rw [searchCacheKey_data, searchCacheKey_data]
    have heq :
        (((List.replicate k ' ' ++ l1) ++ ("-" ++ jsBoolString f).data).map
            Char.toLower).dropWhile isJsSpace
          = ((l2 ++ ("-" ++ jsBoolString f).data).map Char.toLower).dropWhile
              isJsSpace := by
      rw [List.append_assoc, List.map_append, List.map_replicate]
      have htl : Char.toLower ' ' = ' ' := rfl
      rw [htl, dropWhile_replicate_space]
      rw [List.map_append, List.map_append, h]
    rw [heq]
  · intro s1 s2 d1 d2 hs hd
    unfold planCacheKey jsToLower
    congr 1
    simp only [String.data_append, List.map_append]
    rw [hs, hd]

/-- C4 witness: the amended theorem applied at subject `"PYthon"` with two
leading spaces versus `"python"`. -/
theorem claim_C4_amended_witness :
    searchCacheKey (String.mk (List.replicate 2 ' ' ++ "PYthon".data)) false
      = searchCacheKey (String.mk "python".data) false :=
  claim_C4_amended.1 "PYthon".data "python".data false 2 (by decide)

/-! ## Claim C5 — dedup keeps the first occurrence? -/

/-- C5 counterexample: for two results with identical URL but different
titles, the dedup stage keeps exactly one entry — but it is the **second**
one (`Title Two`), not the first: the JS `Map` keeps the first key's position
while later `set`s overwrite the value.  This refutes "keeps the first
occurrence in traversal order". -/
theorem claim_C5_counterexample :
    cexC5r1.url = cexC5r2.url ∧
    cexC5r1.title ≠ cexC5r2.title ∧
    dedupByUrl [cexC5r1, cexC5r2] = [cexC5r2] ∧
    dedupByUrl [cexC5r1, cexC5r2] ≠ [cexC5r1] :=
  ⟨by decide, by decide, by decide, by decide⟩

/-- C5 (amended): deduplication groups by URL and, for every URL present in
the input, the output contains exactly one entry for that URL — namely the
**last** occurrence in traversal order (it sits at the position of the first
occurrence, but carries the last occurrence's fields).  Stated as: filtering
the dedup output by a URL yields exactly the first hit of the reversed
input. -/
theorem claim_C5_amended (l : List RawResult) (u : String) :
    (dedupByUrl l).filter (fun r => r.url == u)
      = (l.reverse.find? (fun r => r.url == u)).toList := by
  unfold dedupByUrl jsMapOfPairs
  have hinv : ∀ p ∈ (l.map (fun r => (r.url, r))).foldl
      (fun m p => jsMapInsert m p.1 p.2) [], p.1 = p.2.url := by
    intro p hp
    rcases jsMapFold_mem (l.map (fun r => (r.url, r))) [] p hp with h | h
    · simp at h
    · rw [List.mem_map] at h
      obtain ⟨r, _, hr⟩ := h
      rw [← hr]
  have hnodup : (((l.map (fun r => (r.url, r))).foldl
      (fun m p => jsMapInsert m p.1 p.2) []).map Prod.fst).Nodup :=
    jsMapFold_keys_nodup (l.map (fun r => (r.url, r))) [] (by simp)
  rw [List.filter_map]
  have hcongr : ((l.map (fun r => (r.url, r))).foldl
        (fun m p => jsMapInsert m p.1 p.2) []).filter
          ((fun r => r.url == u) ∘ Prod.snd)
      = ((l.map (fun r => (r.url, r))).foldl
          (fun m p => jsMapInsert m p.1 p.2) []).filter (fun p => p.1 == u) := by
    apply List.filter_congr
    intro p hp
    show (p.2.url == u) = (p.1 == u)
    rw [hinv p hp]
  rw [hcongr, filter_eq_find?_toList u _ hnodup]
  rw [jsMapFold_find? u (l.map (fun r => (r.url, r))) []]
  simp only [List.find?_nil, Option.or_none]
  rw [← List.map_reverse, List.find?_map]
  have hpred : ((fun (p : String × RawResult) => p.1 == u) ∘ fun r => (r.url, r))
      = (fun r => r.url == u) := rfl
  rw [hpred]
  cases l.reverse.find? (fun r => r.url == u) <;> rfl

/-! ## Claim C6 — ranking by composite score -/

/-- C6: ranking is descending by `score = (relevance_score || 0) +
(timestamp-as-epoch-millis || 0)`; whenever the timestamp term dominates
(`1 + t2 > 5 + t1`), the relevance-1 result R2 sorts above the relevance-5
result R1. -/
theorem claim_C6 (r1 r2 : RawResult) (t1 t2 : Int)
    (h1 : r1.relevance_score = some 5) (h2 : r2.relevance_score = some 1)
    (h3 : r1.timestamp = some t1) (h4 : r2.timestamp = some t2)
    (hdom : 5 + t1 < 1 + t2) :
    sortByScore [r1, r2] = [r2, r1] := by
  have hs1 : score r1 = 5 + t1 := by simp [score, h1, h3]
  have hs2 : score r2 = 1 + t2 := by simp [score, h2, h4]
  have hlt : ¬ (score r2 ≤ score r1) := by
    rw [hs1, hs2]; omega
  unfold sortByScore
  simp only [List.foldr_cons, List.foldr_nil]
  show insertDesc r1 (insertDesc r2 []) = [r2, r1]
  have h0 : insertDesc r2 [] = [r2] := rfl
  rw [h0]
  unfold insertDesc
  rw [if_neg hlt]
  rfl

/-- C6 witness: relevance 5 at timestamp 0 versus relevance 1 at timestamp
10⁹ — the huge epoch-millis term wins. -/
theorem claim_C6_witness : sortByScore [witC6r1, witC6r2] = [witC6r2, witC6r1] :=
  claim_C6 witC6r1 witC6r2 0 1000000000 rfl rfl rfl rfl (by decide)

/-! ## Claim C7 — TTL cache correctness -/

/-- C7: for every key, a `put` followed immediately by a `get` returns the
stored value; any `get` whose distance from the `put` is under the 30-minute
TTL returns the stored value; and a `get` at age ≥ TTL returns absent (a
stale entry is never served). -/
theorem claim_C7 (c : Cache) (k : String) (t now : Int) (v : CacheValue) :
    cacheGet (cachePut c k t v) k t = some v ∧
    (now - t < CACHE_DURATION → cacheGet (cachePut c k t v) k now = some v) ∧
    (CACHE_DURATION ≤ now - t → cacheGet (cachePut c k t v) k now = none) := by
  have hput : cachePut c k t v k = some (t, v) := by
    unfold cachePut
    rw [if_pos rfl]
  unfold cacheGet
  rw [hput]
  dsimp only
  refine ⟨?_, ?_, ?_⟩
  · have h : t - t < CACHE_DURATION := by unfold CACHE_DURATION; omega
    rw [if_pos h]
  · intro h
    rw [if_pos h]
  · intro h
    rw [if_neg (not_lt.mpr h)]

/-- C7 witness: a put at time 0 read back at time 5 (hit) and at exactly
the TTL boundary 1 800 000 ms (absent). -/
theorem claim_C7_witness :
    cacheGet (cachePut cacheEmpty "k" 0 (.search ⟨[], ""⟩)) "k" 5
      = some (.search ⟨[], ""⟩) ∧
    cacheGet (cachePut cacheEmpty "k" 0 (.search ⟨[], ""⟩)) "k" 1800000 = none :=
  ⟨(claim_C7 cacheEmpty "k" 0 5 (.search ⟨[], ""⟩)).2.1 (by decide),
   (claim_C7 cacheEmpty "k" 0 1800000 (.search ⟨[], ""⟩)).2.2 (by decide)⟩

/-! ## Claim C8 — days-until-exam -/

/-- C8: the computed duration is the ceiling of the millisecond difference
divided by one day: an exam exactly 10 days ahead gives 10; a past (or
present) exam date gives a non-positive duration; and with all oracles
succeeding the plan is still generated (no rejection on the date) — the
third conjunct carries no hypothesis on `examMs` at all. -/
theorem claim_C8 :
    (∀ nowMs : Int, daysUntilExam (nowMs + 10 * 86400000) nowMs = 10) ∧
    (∀ examMs nowMs : Int, examMs ≤ nowMs → daysUntilExam examMs nowMs ≤ 0) ∧
    (∀ (env : PlanEnv) (cache : Cache) (s d : String) (crs rrs : List RawResult)
        (text : String) (plan : PlanDoc),
      env.curriculumFetch = .ok crs → env.resourceFetch = .ok rrs →
      (∀ p, env.model p = .ok text) → (∀ t, env.parsePlan t = some plan) →
      cacheGet cache (planCacheKey s d) env.now = none →
      (generateStudyPlan env cache s d).1 = .ok (.plan plan)) := by
  refine ⟨?_, ?_, ?_⟩
  · intro nowMs
    unfold daysUntilExam ceilDiv
    have h : nowMs + 10 * 86400000 - nowMs = 10 * 86400000 := by ring
    rw [h]
    decide
  · intro examMs nowMs h
    unfold daysUntilExam ceilDiv
    have h1 : (0:Int) ≤ -(examMs - nowMs) := by omega
    have h2 : (0:Int) ≤ 1000 * 3600 * 24 := by norm_num
    have h3 := Int.fdiv_nonneg h1 h2
    omega
  · intro env cache s d crs rrs text plan hc hr hm hp hmiss
    simp [generateStudyPlan, hmiss, hc, hr, hm, hp]

/-- C8 witness: duration 10 for now+10 days, a non-positive duration for a
past date, and a generated plan from `witC8env` whose exam date (−5 ms) lies
before its clock (0). -/
theorem claim_C8_witness :
    daysUntilExam (0 + 10 * 86400000) 0 = 10 ∧
    daysUntilExam (-5) 0 ≤ 0 ∧
    (generateStudyPlan witC8env cacheEmpty "math" "2020-01-01").1
      = .ok (.plan ⟨"plan"⟩) :=
  ⟨claim_C8.1 0, claim_C8.2.1 (-5) 0 (by decide),
   claim_C8.2.2 witC8env cacheEmpty "math" "2020-01-01" [] [] "t" ⟨"plan"⟩
     rfl rfl (fun _ => rfl) (fun _ => rfl) rfl⟩

/-! ## Claim C9 — `searchTavily` absorbs every failure -/

/-- C9: on a cache miss, any failing step inside `searchTavily`'s `try` —
either provider request/decoding, or the study-guide synthesis when
`isStudyPlan` — lands in the `catch`, which returns the fallback
`{results: [], answer: ''}`; the function's result type is total, so a
caller can observe upstream failure only as an empty result set, never as a
thrown error. -/
theorem claim_C9 (env : SearchEnv) (cache : Cache) (s : String) (f : Bool)
    (hmiss : cacheGet cache (searchCacheKey s f) env.now = none)
    (hfail : env.videoFetch = .error () ∨ env.platformFetch = .error () ∨
             (f = true ∧ env.guide = .error ())) :
    (searchTavily env cache s f).data = .search ⟨[], ""⟩ := by
  rcases hfail with h | h | ⟨hf, hg⟩
  · cases hp : env.platformFetch <;> simp [searchTavily, hmiss, h, hp]
  · cases hv : env.videoFetch <;> simp [searchTavily, hmiss, h, hv]
  · subst hf
    cases hv : env.videoFetch <;> cases hp : env.platformFetch <;>
      simp [searchTavily, hmiss, hv, hp, hg]

/-- C9 witness: the theorem applied at the all-failing environment. -/
theorem claim_C9_witness :
    (searchTavily witC9env cacheEmpty "x" false).data = .search ⟨[], ""⟩ :=
  claim_C9 witC9env cacheEmpty "x" false rfl (Or.inl rfl)

/-! ## Claim C10 — `generateStudyPlan` never caches a failed execution -/

/-- C10: the cache write in `generateStudyPlan` happens only after
`JSON.parse` succeeded; on every failing execution (provider rejection,
model invocation error, or parse error) the function propagates the error
(`throw error`, line 240) and the cache is left exactly as it was. -/
theorem claim_C10 (env : PlanEnv) (cache : Cache) (s d : String) (e : PlanError)
    (h : (generateStudyPlan env cache s d).1 = .error e) :
    (generateStudyPlan env cache s d).2 = cache := by
  cases hk : cacheGet cache (planCacheKey s d) env.now with
  | some v => simp [generateStudyPlan, hk] at h
  | none =>
    cases hc : env.curriculumFetch with
    | error u => cases hr : env.resourceFetch <;> simp [generateStudyPlan, hk, hc, hr]
    | ok crs =>
      cases hr : env.resourceFetch with
      | error u => simp [generateStudyPlan, hk, hc, hr]
      | ok rrs =>
        cases hm : env.model (buildPlanPrompt s d (daysUntilExam env.examMs env.now)
            (excerpts crs) (excerpts rrs)) with
        | error u => simp [generateStudyPlan, hk, hc, hr, hm]
        | ok text =>
          cases hp : env.parsePlan text with
          | some plan => simp [generateStudyPlan, hk, hc, hr, hm, hp] at h
          | none => simp [generateStudyPlan, hk, hc, hr, hm, hp]

/-- C10 witness: a failing (provider-rejecting) execution leaves the empty
cache empty. -/
theorem claim_C10_witness :
    (generateStudyPlan witC10env cacheEmpty "s" "2025-01-01").2 = cacheEmpty :=
  claim_C10 witC10env cacheEmpty "s" "2025-01-01" .provider rfl
